import Mathlib

/-!
Shallow embedding of the hybrid language-detection and translation
orchestration policy of `services/translation_service.py`.

External collaborators (the `langdetect` statistical classifier, the LLM
completion client, and the translator delegate) are modelled as injected
functions from the call argument to an outcome that is either a returned
string or a raised exception.  String lowercasing is modelled on the ASCII
range (the markers, language codes and validation pattern are all ASCII).
The instrumented functions additionally return the list of collaborator
calls made, in order, so that "invoked exactly once / never" properties can
be stated.
-/

set_option autoImplicit false

namespace CheGpt

/-- Constant `SUPPORTED_LANGS = ["en", "es"]`. -/
def SUPPORTED_LANGS : List String := ["en", "es"]

/-- Constant `UNKNOWN_LANG_CODE = "unknown"`. -/
def UNKNOWN_LANG_CODE : String := "unknown"

/-- An ASCII lowercase letter, the character class `[a-z]`. -/
def isLowerAlpha (c : Char) : Bool := 97 ≤ c.toNat && c.toNat ≤ 122

/-- Model of `ISO_639_1_PATTERN.match(s)` for the pattern `^[a-z]{2}$`
under Python regex semantics: `$` matches at the end of the string or just
before a newline that ends the string, so the pattern accepts two ASCII
lowercase letters optionally followed by a single trailing newline. -/
def isIso6391 (s : String) : Bool :=
  match s.data with
  | [a, b] => isLowerAlpha a && isLowerAlpha b
  | [a, b, c] => isLowerAlpha a && isLowerAlpha b && c == '\n'
  | _ => false

/-- A two-letter all-lowercase language code, stated from the spec's words
for comparison with the code's regex acceptance, which additionally
admits a trailing newline. -/
def specTwoLetterLowercaseCode (s : String) : Bool :=
  s.data.length == 2 && s.data.all isLowerAlpha

/-- Model of Python `str.lower` on one character (ASCII range). -/
def pyCharLower (c : Char) : Char :=
  if 65 ≤ c.toNat ∧ c.toNat ≤ 90 then Char.ofNat (c.toNat + 32) else c

/-- Model of Python `str.lower` (ASCII range). -/
def pyLower (s : String) : String := ⟨s.data.map pyCharLower⟩

/-- ASCII whitespace, as stripped/split on by Python `str.strip()` and
`str.split()`. -/
def pyIsSpace (c : Char) : Bool :=
  c == ' ' || c == '\t' || c == '\n' || c == '\r' || c == '\x0b' || c == '\x0c'

/-- Model of Python `str.strip()`. -/
def pyStrip (s : String) : String :=
  ⟨((s.data.dropWhile pyIsSpace).reverse.dropWhile pyIsSpace).reverse⟩

/-- Model of Python `len(text)` (number of code points). -/
def pyLen (s : String) : Nat := s.data.length

/-- Model of Python `text[:n]` (first `n` code points). -/
def pyTake (s : String) (n : Nat) : String := ⟨s.data.take n⟩

/-- Count of maximal runs of non-whitespace characters; `inWord` records
whether the previous character was inside such a run. -/
def countWordsAux (inWord : Bool) : List Char → Nat
  | [] => 0
  | c :: cs =>
    if pyIsSpace c then countWordsAux false cs
    else (if inWord then 0 else 1) + countWordsAux true cs

/-- Model of `len(text.split())`: number of maximal runs of non-whitespace
characters. -/
def wordCount (text : String) : Nat := countWordsAux false text.data

/-- Is `pat` a prefix of `l`? -/
def listIsPre (pat : List Char) : List Char → Bool
  | [] => pat.isEmpty
  | b :: bs =>
    match pat with
    | [] => true
    | a :: as => a == b && listIsPre as bs

/-- Does `pat` occur as a contiguous sublist of `l`? -/
def listSub (pat : List Char) : List Char → Bool
  | [] => pat.isEmpty
  | b :: bs => listIsPre pat (b :: bs) || listSub pat bs

/-- Model of Python `pat in hay` (substring containment). -/
def strContains (hay pat : String) : Bool := listSub pat.data hay.data

/-- The `english_markers` list of `_detect_language`. -/
def english_markers : List String :=
  ["let's", "let us", "we'll", "we will", "i'm", "i am", "you're", "you are"]

/-- The marker loop of `_detect_language`: does the (already lowercased)
text contain some English marker as a substring? -/
def containsAnyMarker (textLower : String) : Bool :=
  english_markers.any (fun marker => strContains textLower marker)

/-- Outcome of one call to the statistical classifier `langdetect.detect`:
a returned string, a raised `LangDetectException`, or any other raised
exception. -/
inductive StatOutcome where
  | ok (s : String)
  | ldExc
  | exc
  deriving DecidableEq, Repr

/-- Outcome of one call to the completion client `acomplete`: a returned
completion text, or a raised exception. -/
inductive LlmOutcome where
  | ok (s : String)
  | exc
  deriving DecidableEq, Repr

/-- Outcome of one call to the translator delegate `translate`: a returned
string, a raised `TranslationError` carrying an error value, or any other
raised exception carrying an error value. -/
inductive TransOutcome where
  | ok (s : String)
  | terr (e : String)
  | exc (e : String)
  deriving DecidableEq, Repr

/-- The injected collaborators, each mapping its call argument to the
outcome of the call. -/
structure Oracles where
  stat : String → StatOutcome
  complete : String → LlmOutcome
  translate : String → TransOutcome

/-- The configuration surface read from `settings`. -/
structure Config where
  shortInputWordThreshold : Nat

/-- One collaborator call recorded by the instrumented functions. -/
inductive CallEvent where
  | llmDetect
  | statDetect
  | translateCall
  deriving DecidableEq, Repr

/-- Model of `_detect_language_statistical`: run the classifier, validate
its output against the two-letter pattern, downgrade invalid output and
every exception to the unknown sentinel. -/
def detect_language_statistical (stat : String → StatOutcome) (text : String) : String :=
  match stat text with
  | StatOutcome.ok detected =>
    if isIso6391 detected then pyLower detected else UNKNOWN_LANG_CODE
  | StatOutcome.ldExc => UNKNOWN_LANG_CODE
  | StatOutcome.exc => UNKNOWN_LANG_CODE

/-- The fixed part of the language-detection prompt before the user input
(the template with the unknown sentinel already substituted). -/
def LANG_DETECT_PROMPT_PRE : String :=
  "Identify the primary language of the following text. Respond with ONLY the two-letter ISO 639-1 language code (e.g., 'en', 'es', 'fr'). If you are unsure, the text is nonsensical, gibberish, or not a real language, respond with 'unknown'. Text:\n"

/-- The fixed part of the language-detection prompt after the user input. -/
def LANG_DETECT_PROMPT_POST : String := "\nLanguage code:"

/-- The shortened detection text of `_detect_language_llm`: the first 100
characters when the text is longer than 100 characters, the whole text
otherwise. -/
def mkDetectionText (text : String) : String :=
  if pyLen text > 100 then pyTake text 100 else text

/-- `LANG_DETECT_PROMPT_TEMPLATE.format(user_input=detectionText)`. -/
def mkDetectPrompt (detectionText : String) : String :=
  LANG_DETECT_PROMPT_PRE ++ detectionText ++ LANG_DETECT_PROMPT_POST

/-- Model of `_detect_language_llm`: send the prompt built from the
(possibly shortened) text, trim and lowercase the completion, accept it
only if it is the unknown sentinel or matches the two-letter pattern, and
downgrade every exception to the unknown sentinel. -/
def detect_language_llm (complete : String → LlmOutcome) (text : String) : String :=
  match complete (mkDetectPrompt (mkDetectionText text)) with
  | LlmOutcome.ok t =>
    let detected := pyLower (pyStrip t)
    if detected = UNKNOWN_LANG_CODE ∨ isIso6391 detected then detected
    else UNKNOWN_LANG_CODE
  | LlmOutcome.exc => UNKNOWN_LANG_CODE

/-- The tier choice of `_detect_language`: LLM detector for short inputs
(word count at or below the threshold), statistical detector for long
ones.  Also reports which detector was called. -/
def tier_detect (cfg : Config) (o : Oracles) (text : String) : String × CallEvent :=
  if wordCount text ≤ cfg.shortInputWordThreshold then
    (detect_language_llm o.complete text, CallEvent.llmDetect)
  else
    (detect_language_statistical o.stat text, CallEvent.statDetect)

/-- Number of characters of `text` with code point below 128. -/
def asciiChars (text : String) : Nat :=
  (text.data.filter (fun c => c.toNat < 128)).length

/-- `len(text) if text else 1`. -/
def totalChars (text : String) : Nat :=
  if text = "" then 1 else text.data.length

/-- The ASCII-ratio safeguard of `_detect_language`: a detected code that
is neither supported nor unknown is overridden to "en" when more than 90%
of the input characters are ASCII.  `ascii_ratio > 0.9` is expressed
without division as `10 * ascii_chars > 9 * total_chars`. -/
def post_filter (text detected_lang : String) : String :=
  if detected_lang ∉ SUPPORTED_LANGS ∧ detected_lang ≠ UNKNOWN_LANG_CODE then
    if 10 * asciiChars text > 9 * totalChars text then "en" else detected_lang
  else detected_lang

/-- Model of `_detect_language`, instrumented: returns the detected code
and the list of detector calls made.  Marker check first, then the length
tier, then the ASCII-ratio safeguard. -/
def detect_language (cfg : Config) (o : Oracles) (text : String) :
    String × List CallEvent :=
  if containsAnyMarker (pyLower text) then ("en", [])
  else
    (post_filter text (tier_detect cfg o text).1, [(tier_detect cfg o text).2])

/-- Result of `translate_text`: a returned string, a re-raised
`TranslationError`, or a raised `AppError` with its message. -/
inductive TResult where
  | ok (s : String)
  | translationError (e : String)
  | appError (msg : String)
  deriving DecidableEq, Repr

/-- The fixed unsupported-language message, as a function of the detected
code. -/
def unsupportedMessage (detected_lang : String) : String :=
  "Sorry, I currently only support English ('en') and Spanish ('es'). Detected: " ++ detected_lang

/-- Model of `translate_text`, instrumented: returns the result and the
list of collaborator calls made.  Blank input short-circuits; an
unsupported (and not unknown) detected code returns the fixed message
without calling the translator; otherwise the translator is called, its
`TranslationError` re-raised unchanged and any other exception wrapped
into an `AppError`. -/
def translate_text (cfg : Config) (o : Oracles) (text : String) :
    TResult × List CallEvent :=
  if pyStrip text = "" then
    (TResult.ok "Please provide some text to translate.", [])
  else if (detect_language cfg o text).1 ∉ SUPPORTED_LANGS ∧
      (detect_language cfg o text).1 ≠ UNKNOWN_LANG_CODE then
    (TResult.ok (unsupportedMessage (detect_language cfg o text).1),
      (detect_language cfg o text).2)
  else
    match o.translate text with
    | TransOutcome.ok t =>
      (TResult.ok t, (detect_language cfg o text).2 ++ [CallEvent.translateCall])
    | TransOutcome.terr e =>
      (TResult.translationError e, (detect_language cfg o text).2 ++ [CallEvent.translateCall])
    | TransOutcome.exc _ =>
      (TResult.appError "An unexpected error occurred during the translation process.",
        (detect_language cfg o text).2 ++ [CallEvent.translateCall])

/-! ### Helper lemmas -/

/-- Lowercasing fixes a character that is not an ASCII uppercase letter. -/
theorem pyCharLower_eq_self (c : Char) (h : c.toNat < 65 ∨ 90 < c.toNat) : pyCharLower c = c := by
  unfold pyCharLower
  rw [if_neg]
  rintro ⟨h1, h2⟩
  omega

/-- Lowercasing fixes an ASCII lowercase letter. -/
theorem pyCharLower_of_lower (c : Char) (h : isLowerAlpha c = true) : pyCharLower c = c := by
  unfold isLowerAlpha at h
  simp only [Bool.and_eq_true, decide_eq_true_eq] at h
  exact pyCharLower_eq_self c (Or.inr (by omega))

/-- Lowercasing fixes a string accepted by the validation pattern: its
characters are lowercase letters and possibly a final newline. -/
theorem pyLower_eq_self_of_iso (s : String) (h : isIso6391 s = true) : pyLower s = s := by
  obtain ⟨l⟩ := s
  unfold isIso6391 at h
  dsimp only at h
  unfold pyLower
  dsimp only
  congr 1
  rcases l with _ | ⟨a, _ | ⟨b, _ | ⟨c, _ | ⟨d, l⟩⟩⟩⟩
  · rfl
  · simp at h
  · rw [Bool.and_eq_true] at h
    obtain ⟨ha, hb⟩ := h
    simp [pyCharLower_of_lower a ha, pyCharLower_of_lower b hb]
  · rw [Bool.and_eq_true, Bool.and_eq_true] at h
    obtain ⟨⟨ha, hb⟩, hc⟩ := h
    have hc' : c = '\n' := by simpa using hc
    simp [pyCharLower_of_lower a ha, pyCharLower_of_lower b hb, hc',
      pyCharLower_eq_self '\n' (Or.inl (by decide))]
  · simp at h

/-- The statistical wrapper returns a code matching the two-letter pattern
or the unknown sentinel. -/
theorem detect_language_statistical_shape (stat : String → StatOutcome) (text : String) :
    isIso6391 (detect_language_statistical stat text) = true ∨
      detect_language_statistical stat text = UNKNOWN_LANG_CODE := by
  unfold detect_language_statistical
  cases stat text with
  | ok s =>
    dsimp only
    by_cases h : isIso6391 s = true
    · rw [if_pos h, pyLower_eq_self_of_iso s h]
      exact Or.inl h
    · rw [if_neg h]
      exact Or.inr rfl
  | ldExc => exact Or.inr rfl
  | exc => exact Or.inr rfl

/-- The LLM wrapper returns a code matching the two-letter pattern or the
unknown sentinel. -/
theorem detect_language_llm_shape (complete : String → LlmOutcome) (text : String) :
    isIso6391 (detect_language_llm complete text) = true ∨
      detect_language_llm complete text = UNKNOWN_LANG_CODE := by
  unfold detect_language_llm
  cases complete (mkDetectPrompt (mkDetectionText text)) with
  | ok t =>
    dsimp only
    by_cases h : pyLower (pyStrip t) = UNKNOWN_LANG_CODE ∨ isIso6391 (pyLower (pyStrip t)) = true
    · rw [if_pos h]
      exact h.symm.imp id id |>.symm.elim (fun h1 => Or.inr h1) fun h1 => Or.inl h1
    · rw [if_neg h]
      exact Or.inr rfl
  | exc => exact Or.inr rfl

/-- The tier choice returns a code matching the two-letter pattern or the
unknown sentinel. -/
theorem tier_detect_shape (cfg : Config) (o : Oracles) (text : String) :
    isIso6391 (tier_detect cfg o text).1 = true ∨
      (tier_detect cfg o text).1 = UNKNOWN_LANG_CODE := by
  unfold tier_detect
  split
  · exact detect_language_llm_shape o.complete text
  · exact detect_language_statistical_shape o.stat text

/-- The ASCII-ratio safeguard preserves the two-letter-or-unknown shape. -/
theorem post_filter_shape (text d : String)
    (h : isIso6391 d = true ∨ d = UNKNOWN_LANG_CODE) :
    isIso6391 (post_filter text d) = true ∨ post_filter text d = UNKNOWN_LANG_CODE := by
  unfold post_filter
  split
  · split
    · exact Or.inl (by decide)
    · exact h
  · exact h

/-- The detector trace never records a translator call. -/
theorem detect_language_trace_count (cfg : Config) (o : Oracles) (text : String) :
    ((detect_language cfg o text).2).count CallEvent.translateCall = 0 := by
  unfold detect_language tier_detect
  split
  · rfl
  · simp only
    split <;> rfl

/-- A list is a prefix of itself followed by anything. -/
theorem listIsPre_append (p b : List Char) : listIsPre p (p ++ b) = true := by
  induction p with
  | nil => cases b <;> rfl
  | cons a as ih => simp [listIsPre, ih]

/-- A prefix occurs as a sublist. -/
theorem listSub_of_pre (p l : List Char) (h : listIsPre p l = true) :
    listSub p l = true := by
  cases l with
  | nil => simp only [listSub]; simp only [listIsPre] at h; exact h
  | cons b bs => simp [listSub, h]

/-- A list occurs as a sublist of any surrounding concatenation. -/
theorem listSub_append (a p b : List Char) : listSub p (a ++ (p ++ b)) = true := by
  induction a with
  | nil => exact listSub_of_pre p (p ++ b) (listIsPre_append p b)
  | cons c cs ih => simp [listSub, ih]

/-- The formatted prompt contains the detection text as a substring. -/
theorem mkDetectPrompt_contains (s : String) :
    strContains (mkDetectPrompt s) s = true := by
  unfold strContains mkDetectPrompt
  rw [String.data_append, String.data_append, List.append_assoc]
  exact listSub_append LANG_DETECT_PROMPT_PRE.data s.data LANG_DETECT_PROMPT_POST.data

/-- Truncation to 100 characters is idempotent through `mkDetectionText`. -/
theorem mkDetectionText_take (text : String) :
    mkDetectionText (pyTake text 100) = mkDetectionText text := by
  unfold mkDetectionText pyLen pyTake
  by_cases h : text.data.length > 100
  · rw [if_pos h, if_neg (by dsimp only; rw [List.length_take]; omega)]
  · have htake : text.data.take 100 = text.data := List.take_of_length_le (by omega)
    rw [if_neg h, if_neg (by dsimp only; rw [htake]; omega), htake]

/-- Oracles whose three collaborators return fixed outcomes. -/
def constOracles (statRes : StatOutcome) (llmRes : LlmOutcome) (transRes : TransOutcome) :
    Oracles :=
  { stat := fun _ => statRes
    complete := fun _ => llmRes
    translate := fun _ => transRes }

/-- Collaborators that detect "es" and translate successfully. -/
def oEs : Oracles :=
  constOracles (StatOutcome.ok "es") (LlmOutcome.ok "es") (TransOutcome.ok "che boludo")

/-- Collaborators whose translator raises a `TranslationError`. -/
def oBoom : Oracles :=
  constOracles (StatOutcome.ok "es") (LlmOutcome.ok "es") (TransOutcome.terr "boom")

/-- Collaborators whose translator raises a generic exception. -/
def oCrash : Oracles :=
  constOracles (StatOutcome.ok "es") (LlmOutcome.ok "es") (TransOutcome.exc "crash")

/-! ### Claims -/

/-- Claim C2: an input whose lowercased form contains one of the configured
English markers makes `detect_language` return "en" with no detector call,
whatever the statistical or LLM detector would return. -/
theorem C2_marker_short_circuit (cfg : Config) (o : Oracles) (text : String)
    (h : containsAnyMarker (pyLower text) = true) :
    detect_language cfg o text = ("en", []) := by
  unfold detect_language
  rw [if_pos h]

/-- Witness for C2 at the input "let's go". -/
theorem C2_witness :
    containsAnyMarker (pyLower "let's go") = true ∧
      detect_language ⟨3⟩ oEs "let's go" = ("en", []) :=
  ⟨by decide, C2_marker_short_circuit ⟨3⟩ oEs "let's go" (by decide)⟩

/-- Claim C10: marker matching is plain substring containment on the
lowercased text, not word-boundary matching: the Spanish text "mi amor"
contains the marker "i am" across a word boundary, so `detect_language`
returns "en" with no detector call. -/
theorem C10_substring_matching (cfg : Config) (o : Oracles) :
    strContains (pyLower "mi amor") "i am" = true ∧
      detect_language cfg o "mi amor" = ("en", []) := by
  refine ⟨by decide, ?_⟩
  unfold detect_language
  rw [if_pos (by decide)]

/-- Claim C3: with no marker match, the LLM detector is called exactly once
and the statistical detector never when the word count is at or below the
threshold, and the statistical detector exactly once and the LLM detector
never when the word count exceeds the threshold. -/
theorem C3_tier_dispatch (cfg : Config) (o : Oracles) (text : String)
    (hm : containsAnyMarker (pyLower text) = false) :
    (wordCount text ≤ cfg.shortInputWordThreshold →
      (detect_language cfg o text).2 = [CallEvent.llmDetect]) ∧
    (cfg.shortInputWordThreshold < wordCount text →
      (detect_language cfg o text).2 = [CallEvent.statDetect]) := by
  unfold detect_language tier_detect
  rw [if_neg (by simp [hm])]
  constructor
  · intro h
    dsimp only
    rw [if_pos h]
  · intro h
    dsimp only
    rw [if_neg (by omega)]

/-- Witness for C3 at the input "hola amigo" with threshold 2. -/
theorem C3_witness :
    containsAnyMarker (pyLower "hola amigo") = false ∧
      ((wordCount "hola amigo" ≤ (⟨2⟩ : Config).shortInputWordThreshold →
        (detect_language ⟨2⟩ oEs "hola amigo").2 = [CallEvent.llmDetect]) ∧
      ((⟨2⟩ : Config).shortInputWordThreshold < wordCount "hola amigo" →
        (detect_language ⟨2⟩ oEs "hola amigo").2 = [CallEvent.statDetect])) :=
  ⟨by decide, C3_tier_dispatch ⟨2⟩ oEs "hola amigo" (by decide)⟩

/-- Claim C4: when the tier-detected code is neither supported nor unknown,
the final result is "en" when strictly more than 90% of the input
characters are ASCII, and the tier-detected code unchanged otherwise. -/
theorem C4_ascii_override (cfg : Config) (o : Oracles) (text : String)
    (hm : containsAnyMarker (pyLower text) = false)
    (hd : (tier_detect cfg o text).1 ∉ SUPPORTED_LANGS)
    (hu : (tier_detect cfg o text).1 ≠ UNKNOWN_LANG_CODE) :
    (10 * asciiChars text > 9 * totalChars text →
      (detect_language cfg o text).1 = "en") ∧
    (10 * asciiChars text ≤ 9 * totalChars text →
      (detect_language cfg o text).1 = (tier_detect cfg o text).1) := by
  unfold detect_language
  rw [if_neg (by simp [hm])]
  dsimp only
  unfold post_filter
  rw [if_pos ⟨hd, hu⟩]
  constructor
  · intro h
    rw [if_pos h]
  · intro h
    rw [if_neg (by omega)]

/-- Witness for C4 at the all-ASCII input "bonjour" detected as "fr". -/
theorem C4_witness :
    containsAnyMarker (pyLower "bonjour") = false ∧
      (tier_detect ⟨3⟩ (constOracles (StatOutcome.ok "fr") (LlmOutcome.ok "fr") (TransOutcome.ok "x")) "bonjour").1 ∉ SUPPORTED_LANGS ∧
      (tier_detect ⟨3⟩ (constOracles (StatOutcome.ok "fr") (LlmOutcome.ok "fr") (TransOutcome.ok "x")) "bonjour").1 ≠ UNKNOWN_LANG_CODE ∧
      ((10 * asciiChars "bonjour" > 9 * totalChars "bonjour" →
        (detect_language ⟨3⟩ (constOracles (StatOutcome.ok "fr") (LlmOutcome.ok "fr") (TransOutcome.ok "x")) "bonjour").1 = "en") ∧
      (10 * asciiChars "bonjour" ≤ 9 * totalChars "bonjour" →
        (detect_language ⟨3⟩ (constOracles (StatOutcome.ok "fr") (LlmOutcome.ok "fr") (TransOutcome.ok "x")) "bonjour").1 =
          (tier_detect ⟨3⟩ (constOracles (StatOutcome.ok "fr") (LlmOutcome.ok "fr") (TransOutcome.ok "x")) "bonjour").1)) :=
  ⟨by decide, by decide, by decide,
    C4_ascii_override ⟨3⟩ (constOracles (StatOutcome.ok "fr") (LlmOutcome.ok "fr") (TransOutcome.ok "x"))
      "bonjour" (by decide) (by decide) (by decide)⟩

/-- Claim C5 as amended: the sub-detectors absorb failure: a classifier or
LLM output that fails the code's validation pattern — two lowercase
letters, optionally followed by a single trailing newline under Python
regex semantics — (and, for the LLM, is not the unknown sentinel after
trimming and lowercasing) yields the unknown sentinel, and every exception
inside either detector yields the unknown sentinel; being total functions,
the modelled detectors never raise. -/
theorem C5_detectors_absorb (stat : String → StatOutcome)
    (complete : String → LlmOutcome) (text : String) :
    ((∀ s, stat text = StatOutcome.ok s → isIso6391 s = false →
        detect_language_statistical stat text = UNKNOWN_LANG_CODE) ∧
      (stat text = StatOutcome.ldExc →
        detect_language_statistical stat text = UNKNOWN_LANG_CODE) ∧
      (stat text = StatOutcome.exc →
        detect_language_statistical stat text = UNKNOWN_LANG_CODE)) ∧
    ((∀ t, complete (mkDetectPrompt (mkDetectionText text)) = LlmOutcome.ok t →
        pyLower (pyStrip t) ≠ UNKNOWN_LANG_CODE →
        isIso6391 (pyLower (pyStrip t)) = false →
        detect_language_llm complete text = UNKNOWN_LANG_CODE) ∧
      (complete (mkDetectPrompt (mkDetectionText text)) = LlmOutcome.exc →
        detect_language_llm complete text = UNKNOWN_LANG_CODE)) := by
  refine ⟨⟨?_, ?_, ?_⟩, ?_, ?_⟩
  · intro s hs hbad
    unfold detect_language_statistical
    rw [hs]
    dsimp only
    rw [if_neg (by simp [hbad])]
  · intro hs
    unfold detect_language_statistical
    rw [hs]
  · intro hs
    unfold detect_language_statistical
    rw [hs]
  · intro t ht hne hbad
    unfold detect_language_llm
    rw [ht]
    dsimp only
    rw [if_neg]
    rintro (h1 | h2)
    · exact hne h1
    · rw [hbad] at h2
      exact Bool.false_ne_true h2
  · intro ht
    unfold detect_language_llm
    rw [ht]

/-- Witness for C5: a classifier output failing the pattern is downgraded. -/
theorem C5_witness :
    detect_language_statistical (fun _ => StatOutcome.ok "Fr!") "hola" = UNKNOWN_LANG_CODE :=
  (C5_detectors_absorb (fun _ => StatOutcome.ok "Fr!") (fun _ => LlmOutcome.ok "en")
    "hola").1.1 "Fr!" rfl (by decide)

/-- Counterexample to claim C5 as stated: the classifier output "ab\n" is
not a two-letter lowercase code, yet the code's regex accepts it (Python's
"$" matches before the trailing newline) and the statistical wrapper
returns the raw value, not the unknown sentinel. -/
theorem C5_counterexample :
    specTwoLetterLowercaseCode "ab\n" = false ∧
      detect_language_statistical (fun _ => StatOutcome.ok "ab\n") "hola" = "ab\n" ∧
      "ab\n" ≠ UNKNOWN_LANG_CODE :=
  ⟨by decide, by decide, by decide⟩

/-- Claim C6: blank input short-circuits `translate_text` to the fixed
prompt string, with no detector and no translator call. -/
theorem C6_blank_short_circuit (cfg : Config) (o : Oracles) (text : String)
    (h : pyStrip text = "") :
    translate_text cfg o text =
      (TResult.ok "Please provide some text to translate.", []) := by
  unfold translate_text
  rw [if_pos h]

/-- Witness for C6 at a whitespace-only input. -/
theorem C6_witness :
    pyStrip "   " = "" ∧
      translate_text ⟨3⟩ oEs "   " =
        (TResult.ok "Please provide some text to translate.", []) :=
  ⟨by decide, C6_blank_short_circuit ⟨3⟩ oEs "   " (by decide)⟩

/-- Claim C1: for a non-blank input, the translator is called exactly once
when the detected code is supported or unknown; otherwise `translate_text`
returns the fixed unsupported-language message with the detected code
substituted and never calls the translator. -/
theorem C1_translator_called_iff (cfg : Config) (o : Oracles) (text : String)
    (hne : pyStrip text ≠ "") :
    ((detect_language cfg o text).1 ∈ SUPPORTED_LANGS ∨
        (detect_language cfg o text).1 = UNKNOWN_LANG_CODE →
      ((translate_text cfg o text).2).count CallEvent.translateCall = 1) ∧
    ((detect_language cfg o text).1 ∉ SUPPORTED_LANGS ∧
        (detect_language cfg o text).1 ≠ UNKNOWN_LANG_CODE →
      (translate_text cfg o text).1 =
        TResult.ok (unsupportedMessage (detect_language cfg o text).1) ∧
      ((translate_text cfg o text).2).count CallEvent.translateCall = 0) := by
  unfold translate_text
  rw [if_neg hne]
  constructor
  · intro hs
    rw [if_neg (fun hc => hs.elim (fun h1 => hc.1 h1) fun h2 => hc.2 h2)]
    cases ht : o.translate text <;>
      simp [List.count_append, detect_language_trace_count]
  · rintro ⟨h1, h2⟩
    rw [if_pos ⟨h1, h2⟩]
    exact ⟨rfl, detect_language_trace_count cfg o text⟩

/-- Witness for C1 at the input "hola" detected as "es". -/
theorem C1_witness :
    pyStrip "hola" ≠ "" ∧
      (((detect_language ⟨3⟩ oEs "hola").1 ∈ SUPPORTED_LANGS ∨
          (detect_language ⟨3⟩ oEs "hola").1 = UNKNOWN_LANG_CODE →
        ((translate_text ⟨3⟩ oEs "hola").2).count CallEvent.translateCall = 1) ∧
      ((detect_language ⟨3⟩ oEs "hola").1 ∉ SUPPORTED_LANGS ∧
          (detect_language ⟨3⟩ oEs "hola").1 ≠ UNKNOWN_LANG_CODE →
        (translate_text ⟨3⟩ oEs "hola").1 =
          TResult.ok (unsupportedMessage (detect_language ⟨3⟩ oEs "hola").1) ∧
        ((translate_text ⟨3⟩ oEs "hola").2).count CallEvent.translateCall = 0)) :=
  ⟨by decide, C1_translator_called_iff ⟨3⟩ oEs "hola" (by decide)⟩

/-- Claim C7: when the translator is reached, a `TranslationError` it
raises is re-raised unchanged (same error value), and any other exception
it raises is wrapped into the generic `AppError`. -/
theorem C7_error_propagation (cfg : Config) (o : Oracles) (text : String)
    (hne : pyStrip text ≠ "")
    (hs : (detect_language cfg o text).1 ∈ SUPPORTED_LANGS ∨
      (detect_language cfg o text).1 = UNKNOWN_LANG_CODE) :
    (∀ e, o.translate text = TransOutcome.terr e →
      (translate_text cfg o text).1 = TResult.translationError e) ∧
    (∀ e, o.translate text = TransOutcome.exc e →
      (translate_text cfg o text).1 =
        TResult.appError "An unexpected error occurred during the translation process.") := by
  unfold translate_text
  rw [if_neg hne, if_neg (fun hc => hs.elim (fun h1 => hc.1 h1) fun h2 => hc.2 h2)]
  constructor
  · intro e he
    rw [he]
  · intro e he
    rw [he]

/-- Witness for C7: a `TranslationError` value "boom" is re-raised
unchanged on the input "hola". -/
theorem C7_witness :
    pyStrip "hola" ≠ "" ∧
      ((detect_language ⟨3⟩ oBoom "hola").1 ∈ SUPPORTED_LANGS ∨
        (detect_language ⟨3⟩ oBoom "hola").1 = UNKNOWN_LANG_CODE) ∧
      (translate_text ⟨3⟩ oBoom "hola").1 = TResult.translationError "boom" :=
  ⟨by decide, by decide,
    (C7_error_propagation ⟨3⟩ oBoom "hola" (by decide) (by decide)).1 "boom" rfl⟩

/-- Claim C8 as amended: `detect_language` always returns either a string
accepted by the code's validation pattern — two lowercase letters,
optionally followed by a single trailing newline under Python regex
semantics — or the unknown sentinel, for every input and every detector
behavior. -/
theorem C8_result_shape (cfg : Config) (o : Oracles) (text : String) :
    isIso6391 (detect_language cfg o text).1 = true ∨
      (detect_language cfg o text).1 = UNKNOWN_LANG_CODE := by
  unfold detect_language
  split
  · exact Or.inl (by decide)
  · exact post_filter_shape text _ (tier_detect_shape cfg o text)

/-- Counterexample to claim C8 as stated: on a long, mostly non-ASCII
input with no English marker, a classifier output of "ab\n" — accepted by
the code's regex via the trailing-newline quirk — is returned by
`detect_language` unchanged, and it is neither a two-letter lowercase code
nor the unknown sentinel. -/
theorem C8_counterexample :
    (detect_language ⟨0⟩
        (constOracles (StatOutcome.ok "ab\n") (LlmOutcome.ok "es") (TransOutcome.ok "x"))
        "ñoño ñandú").1 = "ab\n" ∧
      specTwoLetterLowercaseCode "ab\n" = false ∧
      "ab\n" ≠ UNKNOWN_LANG_CODE :=
  ⟨by decide, by decide, by decide⟩

/-- Claim C9: the LLM detector truncates its input to the first 100
characters: the prompt contains the (possibly truncated) detection text as
a substring, the detection text is the first 100 characters exactly when
the text is longer than 100 characters, and the detector result on a text
equals its result on the text's first 100 characters, for a fixed
completion client. -/
theorem C9_llm_truncation (complete : String → LlmOutcome) (text : String) :
    mkDetectionText text = (if pyLen text > 100 then pyTake text 100 else text) ∧
    strContains (mkDetectPrompt (mkDetectionText text)) (mkDetectionText text) = true ∧
    detect_language_llm complete text = detect_language_llm complete (pyTake text 100) := by
  refine ⟨rfl, mkDetectPrompt_contains _, ?_⟩
  unfold detect_language_llm
  rw [mkDetectionText_take]

end CheGpt
